import Mathlib

attribute [local semireducible] Rat.mul Rat.add Rat.sub Rat.inv Rat.ofScientific

/-!
Verification of the m2py repository: the preferred-number-series utilities
in m2py/prefnumpy.py and the saturated-steam helpers in thermo/steamtables.py.

Conventions of the embedding:
* Python ints become Nat, Python floats become Rat (the claims under
  scrutiny are exact arithmetic identities, so Rat is adequate).
* A Python function that can raise becomes an Except returning function;
  the raised message string is carried in the error.
* A Python function that can fall off its end (returning None) becomes an
  Option returning function.
-/

namespace Prefnum

/-- Embeds PrNmRLkUp from m2py/prefnumpy.py.  The source sets PfO to 2 and
DfA to the one element list holding 0 before the dispatch chain, and no
branch ever reassigns them.  The dispatch chain is transcribed branch by
branch in source order.  Note on the source text: the four branches written
with a doubled single quote inside the token (the rounded Renard variants of
the original MATLAB code) compare against plain tokens R5, R10, R20, R40 in
Python, because adjacent string literals concatenate; those four comparisons
are therefore unreachable, being shadowed by the earlier identical
comparisons.  They are kept here, in source order, for fidelity.  Any token
matching no branch yields the error of the final else. -/
def PrNmRLkUp (PfT : String) : Except String (List ℕ × ℕ × List ℚ) :=
  let PfO : ℕ := 2
  let DfA : List ℚ := [0]
  if PfT = "R5" then
    .ok ([100, 158, 251, 398, 631], PfO, DfA)
  else if PfT = "R10" then
    .ok ([100, 125, 160, 200, 250, 315, 400, 500, 630, 800], PfO, DfA)
  else if PfT = "R20" then
    .ok ([100, 112, 125, 140, 160, 180, 200, 224, 250, 280, 315, 355, 400, 450, 500, 560, 630, 710, 800, 900], PfO, DfA)
  else if PfT = "R40" then
    .ok ([100, 106, 112, 118, 125, 132, 140, 150, 160, 170, 180, 190, 200, 212, 224, 236, 250, 265, 280, 300,
          315, 335, 355, 375, 400, 425, 450, 475, 500, 530, 560, 600, 630, 670, 710, 750, 800, 850, 900, 950], PfO, DfA)
  else if PfT = "R80" then
    .ok ([100, 103, 106, 109, 112, 115, 118, 122, 125, 128, 132, 136, 140, 145, 150, 155, 160, 165, 170, 175,
          180, 185, 190, 195, 200, 206, 212, 218, 224, 230, 236, 243, 250, 258, 265, 272, 280, 290, 300, 307,
          315, 325, 335, 345, 355, 365, 375, 387, 400, 412, 425, 437, 450, 462, 475, 487, 500, 515, 530, 545,
          560, 580, 600, 615, 630, 650, 670, 690, 710, 730, 750, 775, 800, 825, 850, 875, 900, 925, 950, 975], PfO, DfA)
  -- source branch written R doubled-quote 5: in Python this is the token R5
  else if PfT = "R5" then
    .ok ([100, 160, 250, 400, 630], PfO, DfA)
  -- source branch written R doubled-quote 10: in Python this is the token R10
  else if PfT = "R10" then
    .ok ([100, 125, 160, 200, 250, 320, 400, 500, 630, 800], PfO, DfA)
  -- source branch written R doubled-quote 20: in Python this is the token R20
  else if PfT = "R20" then
    .ok ([100, 110, 125, 140, 160, 180, 200, 220, 250, 280, 320, 360, 400, 450, 500, 560, 630, 710, 800, 900], PfO, DfA)
  -- source branch written R doubled-quote 40: in Python this is the token R40
  else if PfT = "R40" then
    .ok ([100, 105, 110, 120, 125, 130, 140, 150, 160, 170, 180, 190, 200, 210, 220, 240, 250, 260, 280, 300,
          320, 340, 360, 380, 400, 420, 450, 480, 500, 530, 560, 600, 630, 670, 710, 750, 800, 850, 900, 950], PfO, DfA)
  else if PfT = "R\"5" then
    .ok ([100, 150, 250, 400, 600], PfO, DfA)
  else if PfT = "R\"10" then
    .ok ([100, 120, 150, 200, 250, 300, 400, 500, 600, 800], PfO, DfA)
  else if PfT = "R\"20" then
    .ok ([100, 110, 120, 140, 150, 180, 200, 220, 250, 280, 300, 350, 400, 450, 500, 550, 600, 700, 800, 900], PfO, DfA)
  else
    .error "Unrecognized preferred number series token."

/-- Embeds prefnum from m2py/prefnumpy.py exactly as the source stands: the
body computes the nonzero mask IxZ and the constant IsV and then ends, so
the Python function returns None on every call.  The intended outputs
documented in the source header (rounded vector, spanning series, edges,
histogram counts) are never produced; the Option result is always none. -/
def prefnum (InA : List ℚ) (PfT : String) (varargin : Option ℚ) : Option (List ℚ × List ℚ × List ℚ × List ℕ) :=
  let IxZ : List Bool := InA.map (fun a => decide (0 < a))
  let IsV : Bool := true
  none

/-- Modelled from the spec: the rounding edge of the Rounder/Binner.  The
rounding routine prefnum in m2py/prefnumpy.py ends before producing any
output, so the edge construction only exists in the documented contract:
for two adjacent series values v1 and v2 with tolerance tol, the edge
between their bins is the average of (1 + tol) * v1 and (1 - tol) * v2. -/
def mkEdge (tol v1 v2 : ℚ) : ℚ :=
  ((1 + tol) * v1 + (1 - tol) * v2) / 2

/-- Modelled from the spec: bin assignment of the Rounder/Binner.  Walks an
ascending candidate list; a value strictly below the edge separating the
current candidate from the next rounds to the current candidate, a value at
or above that edge moves on (lower inclusive half open bins, so a tie at an
edge goes to the upper bin). -/
def pickBin (tol a : ℚ) : List ℚ → ℚ
  | [] => 0
  | [c] => c
  | c1 :: c2 :: rest => if a < mkEdge tol c1 c2 then c1 else pickBin tol a (c2 :: rest)

/-- Fuel driven floor of the base ten logarithm of a positive rational;
auxiliary to the decade replication of the Rounder/Binner model. -/
def ilog10 : ℕ → ℚ → ℤ
  | 0, _ => 0
  | f + 1, a =>
    if a < 1 then ilog10 f (a * 10) - 1
    else if a < 10 then 0
    else ilog10 f (a / 10) + 1

/-- Floor of the base ten logarithm of a positive rational, with fuel large
enough for any positive input. -/
def floorLog10 (a : ℚ) : ℤ :=
  ilog10 (a.num.natAbs + a.den) a

/-- Modelled from the spec: the effective candidate domain around one input
value.  The inbuilt one decade series (whose values lie in the decade from
100 to 1000) is replicated by powers of ten across the decade of the input
value and its two neighbours, enough to bracket the value on both sides. -/
def candidates (S : List ℚ) (a : ℚ) : List ℚ :=
  let k := floorLog10 a - 2
  S.map (fun s => s * (10 : ℚ) ^ (k - 1)) ++
    S.map (fun s => s * (10 : ℚ) ^ k) ++
      S.map (fun s => s * (10 : ℚ) ^ (k + 1))

/-- Modelled from the spec: the Rounder/Binner entry point (round_to_series)
for an inbuilt series token, restricted to its first output, the rounded
vector.  The source prefnum terminates before computing any output, so this
follows the documented contract: the series and its default tolerance come
from the series builder PrNmRLkUp (with an optional tolerance override); a
zero valued input element is returned as zero unconditionally; every other
element is binned against the decade replicated series with tolerance
adjusted edges and rounds to the anchor of its bin. -/
def round_to_series (InA : List ℚ) (PfT : String) (tolOpt : Option ℚ) : Except String (List ℚ) :=
  match PrNmRLkUp PfT with
  | .error e => .error e
  | .ok (S, _, DfA) =>
    let tol := tolOpt.getD (DfA.headD 0)
    let Sq : List ℚ := S.map (fun n => (n : ℚ))
    .ok (InA.map (fun a => if a = 0 then 0 else pickBin tol a (candidates Sq a)))

end Prefnum

namespace Steam

/-- Embeds the module constant tol of thermo/steamtables.py. -/
def tol : ℚ := 1 / 1000

/-- Embeds stable from thermo/steamtables.py.  The interpolation primitive
interpol and the saturation table live in the external rawdata module, which
is outside the repository sources; following the code structure, stable maps
each requested parameter name to one interpolated value, so the table lookup
is abstracted as an explicit interpolation function argument interp taking
the value, the input column name and the output column name. -/
def stable (interp : ℚ → String → String → ℚ) (value : ℚ) (inp : String) (params : List String) : List ℚ :=
  params.map (fun p => interp value inp p)

/-- Embeds mixture_volume from thermo/steamtables.py: reads the saturated
liquid and vapor specific volumes from the table and returns the quality
weighted average (1 - x) * vf + x * vg. -/
def mixture_volume (interp : ℚ → String → String → ℚ) (x value : ℚ) (inp : String) : ℚ :=
  let r := stable interp value inp ["Vf", "Vg"]
  let vfsat := r.getD 0 0
  let vgsat := r.getD 1 0
  (1 - x) * vfsat + x * vgsat

/-- Embeds vapor_quality from thermo/steamtables.py: reads the saturated
volumes from the table and returns (v - vf) / (vg - vf). -/
def vapor_quality (interp : ℚ → String → String → ℚ) (v value : ℚ) (inp : String) : ℚ :=
  let r := stable interp value inp ["Vf", "Vg"]
  let vfsat := r.getD 0 0
  let vgsat := r.getD 1 0
  (v - vfsat) / (vgsat - vfsat)

/-- Embeds phase from thermo/steamtables.py.  When P is given the pressure
branch classifies by temperature against the saturation temperature and
always returns a string; otherwise, when v is given, the volume branch
classifies v against the interpolated saturated volumes and falls through to
None when no comparison branch applies; when neither is given the function
falls off its end and returns None. -/
def phase (interp : ℚ → String → String → ℚ) (T : ℚ) (P v : Option ℚ) : Option String :=
  match P with
  | some p =>
    let r := stable interp p "P" ["T", "Vf", "Vg"]
    let Tsat := r.getD 0 0
    if T < Tsat then some "Supercooled liquid"
    else if |T - Tsat| < tol then some "Two mixed phase mixture liquid and vapor"
    else some "Vapor"
  | none =>
    match v with
    | some vv =>
      let r := stable interp T "T" ["P", "Vf", "Vg"]
      let vfsat := r.getD 1 0
      let vgsat := r.getD 2 0
      if vv < vfsat then some "Liquid"
      else if vfsat < vv ∧ vv < vgsat then some "Two mixed phase mixture liquid and vapor"
      else if vv > vgsat then some "Super Heated Vapor"
      else none
    | none => none

/-- Concrete interpolation function used by the closed witnesses: the Vg
column interpolates to 2, every other column to 1. -/
def interpTest (value : ℚ) (inp p : String) : ℚ :=
  if p = "Vg" then 2 else 1

end Steam

namespace Prefnum

/-- Claim C1: the claim says every token of the documented set, E6 included,
is recognized by PrNmRLkUp.  The code disagrees: its dispatch chain holds
only Renard tokens, so the documented token E6 lands in the final else and
raises the unrecognized series error.  This theorem evaluates the builder at
that failing input. -/
theorem c1_E6_unrecognized :
    PrNmRLkUp "E6" = .error "Unrecognized preferred number series token." := rfl

/-- Claim C2, counterexample: the claim says the mode flag returned for the
basic token R5 differs from the one returned for the twice rounded token
with the doubled quote; in the code both calls return the constant flag 2. -/
theorem c2_flag_counterexample :
    (PrNmRLkUp "R5").map (fun r => r.2.1) = .ok 2 ∧
      (PrNmRLkUp "R\"5").map (fun r => r.2.1) = .ok 2 := ⟨rfl, rfl⟩

/-- Claim C2, amended: for every token the series builder recognizes, the
returned mode flag is the constant 2 and the returned default tolerance list
is the constant [0]; the flag therefore does not distinguish the basic,
rounded and twice rounded variants. -/
theorem c2_flag_constant (s : String) (S : List ℕ) (PfO : ℕ) (DfA : List ℚ)
    (h : PrNmRLkUp s = .ok (S, PfO, DfA)) : PfO = 2 ∧ DfA = [0] := by
  unfold PrNmRLkUp at h
  split_ifs at h <;> injection h with h <;>
    injection h with h1 h <;> injection h with h2 h3 <;> exact ⟨h2.symm, h3.symm⟩

/-- Witness for the amended claim C2 at the concrete token R5. -/
theorem c2_flag_constant_witness :
    PrNmRLkUp "R5" = .ok ([100, 158, 251, 398, 631], 2, [0]) ∧ ((2 : ℕ) = 2 ∧ ([0] : List ℚ) = [0]) :=
  ⟨rfl, c2_flag_constant "R5" [100, 158, 251, 398, 631] 2 [0] rfl⟩

/-- Claim C3: the claim says the unrecognized series error is raised exactly
for tokens outside the documented set.  The code indeed raises it for the
unknown token E7, but it also raises it for E12, a token of the documented
set, so the error is not confined to unknown tokens.  This theorem evaluates
both calls. -/
theorem c3_raise_not_confined :
    PrNmRLkUp "E7" = .error "Unrecognized preferred number series token." ∧
      PrNmRLkUp "E12" = .error "Unrecognized preferred number series token." := ⟨rfl, rfl⟩

set_option maxRecDepth 8000 in
/-- Claim C4: every series list the builder actually returns is strictly
increasing, has only positive values, and its largest value is below ten
times its smallest value, so the list spans less than one decade. -/
theorem c4_series_invariants (s : String) (S : List ℕ) (PfO : ℕ) (DfA : List ℚ)
    (h : PrNmRLkUp s = .ok (S, PfO, DfA)) :
    S.Pairwise (· < ·) ∧ (∀ x ∈ S, 0 < x) ∧ ∀ x ∈ S, ∀ y ∈ S, x < 10 * y := by
  unfold PrNmRLkUp at h
  split_ifs at h <;> injection h with h <;>
    injection h with h1 h <;> subst h1 <;> decide

/-- Witness for claim C4 at the concrete token R5. -/
theorem c4_series_invariants_witness :
    PrNmRLkUp "R5" = .ok ([100, 158, 251, 398, 631], 2, [0]) ∧
      (List.Pairwise (· < ·) [100, 158, 251, 398, 631] ∧
        (∀ x ∈ [100, 158, 251, 398, 631], 0 < x) ∧
          ∀ x ∈ [100, 158, 251, 398, 631], ∀ y ∈ [100, 158, 251, 398, 631], x < 10 * y) :=
  ⟨rfl, c4_series_invariants "R5" [100, 158, 251, 398, 631] 2 [0] rfl⟩

/-- Claim C5: the claim says the builder returns the documented per token
default tolerances, among them 0.36 for the token 125.  The code disagrees:
the token 125 is not in the dispatch chain at all, so the call raises the
unrecognized series error instead of returning any tolerance.  This theorem
evaluates the builder at that failing input. -/
theorem c5_token125_unrecognized :
    PrNmRLkUp "125" = .error "Unrecognized preferred number series token." := rfl

/-- Claim C6: in the modelled rounder, every zero valued element of the
input vector is mapped to zero in the rounded output, for every series token
and every tolerance; zero is never matched against the series. -/
theorem c6_zero_maps_to_zero (InA : List ℚ) (PfT : String) (tolOpt : Option ℚ)
    (out : List ℚ) (h : round_to_series InA PfT tolOpt = .ok out)
    (i : ℕ) (hi : i < InA.length) (ho : i < out.length)
    (hz : InA.get ⟨i, hi⟩ = 0) : out.get ⟨i, ho⟩ = 0 := by
  unfold round_to_series at h
  split at h
  · exact absurd h (by simp)
  · injection h with h
    subst h
    simp only [List.get_eq_getElem, List.getElem_map]
    rw [List.get_eq_getElem] at hz
    rw [hz]
    simp

/-- Witness for claim C6 at a concrete call with a zero element. -/
theorem c6_zero_maps_to_zero_witness :
    round_to_series [0, 514] "R10" none = .ok [0, 500] ∧
      ([0, 514] : List ℚ).get ⟨0, by decide⟩ = 0 ∧ ([0, 500] : List ℚ).get ⟨0, by decide⟩ = 0 :=
  ⟨rfl, rfl, c6_zero_maps_to_zero [0, 514] "R10" none [0, 500] rfl 0 (by decide) (by decide) rfl⟩

/-- Claim C7: in the modelled rounder, the bin edge between two adjacent
series values v1 < v2 under tolerance tol is the documented combination
((1 + tol) * v1 + (1 - tol) * v2) / 2, and with tolerance zero this edge is
the arithmetic mean of v1 and v2.  The function mkEdge is exactly the edge
used by the bin assignment pickBin of round_to_series. -/
theorem c7_edge_formula (tol v1 v2 : ℚ) (h : v1 < v2) :
    mkEdge tol v1 v2 = ((1 + tol) * v1 + (1 - tol) * v2) / 2 ∧
      mkEdge 0 v1 v2 = (v1 + v2) / 2 := by
  refine ⟨rfl, ?_⟩
  unfold mkEdge
  ring

/-- Witness for claim C7 at the adjacent pair 20 < 30 with tolerance one
quarter. -/
theorem c7_edge_formula_witness :
    (20 : ℚ) < 30 ∧
      (mkEdge (1/4) 20 30 = ((1 + 1/4) * 20 + (1 - 1/4) * 30) / 2 ∧
        mkEdge 0 20 30 = (20 + 30) / 2) :=
  ⟨by decide, c7_edge_formula (1/4) 20 30 (by decide)⟩

/-- Claim C8: the modelled rounder reproduces the documented example: the
vector [514, 7.6, 37, 0.9] rounded to the Renard R10 series gives
[500, 8, 40, 1].  The element 0.9 sits exactly on the zero tolerance edge
between the candidates 0.8 and 1 and goes to the upper bin. -/
theorem c8_round_R10_example :
    round_to_series [514, 7.6, 37, 0.9] "R10" none = .ok [500, 8, 40, 1] := rfl

end Prefnum

namespace Steam

/-- Claim C9: whenever the interpolated saturated volumes differ, reading a
mixture volume back through vapor_quality returns the original quality:
vapor_quality of mixture_volume x is x, for every interpolation function,
quality, value and input column. -/
theorem c9_quality_roundtrip (interp : ℚ → String → String → ℚ) (x value : ℚ) (inp : String)
    (h : interp value inp "Vg" ≠ interp value inp "Vf") :
    vapor_quality interp (mixture_volume interp x value inp) value inp = x := by
  unfold vapor_quality mixture_volume stable
  simp only [List.map, List.getD, List.getElem?_cons_zero, List.getElem?_cons_succ,
    Option.getD_some]
  have hne : interp value inp "Vg" - interp value inp "Vf" ≠ 0 := sub_ne_zero.mpr h
  field_simp
  ring

/-- Witness for claim C9 at the concrete interpolation interpTest, quality
one third, value 7 and input column T. -/
theorem c9_quality_roundtrip_witness :
    interpTest 7 "T" "Vg" ≠ interpTest 7 "T" "Vf" ∧
      vapor_quality interpTest (mixture_volume interpTest (1/3) 7 "T") 7 "T" = 1/3 :=
  ⟨by decide, c9_quality_roundtrip interpTest (1/3) 7 "T" (by decide)⟩

/-- Claim C10: when phase is called with a specific volume exactly equal to
the interpolated saturated liquid volume or the interpolated saturated vapor
volume at T, no classification branch applies and the result is none, and a
call with neither P nor v also returns none.  The saturation table satisfies
Vf ≤ Vg, stated here as a hypothesis on the abstract interpolation. -/
theorem c10_phase_boundary (interp : ℚ → String → String → ℚ) (T : ℚ)
    (h : interp T "T" "Vf" ≤ interp T "T" "Vg") :
    phase interp T none (some (interp T "T" "Vf")) = none ∧
      phase interp T none (some (interp T "T" "Vg")) = none ∧
        phase interp T none none = none := by
  refine ⟨?_, ?_, rfl⟩
  · show (if interp T "T" "Vf" < interp T "T" "Vf" then some "Liquid"
      else if interp T "T" "Vf" < interp T "T" "Vf" ∧ interp T "T" "Vf" < interp T "T" "Vg" then
        some "Two mixed phase mixture liquid and vapor"
      else if interp T "T" "Vf" > interp T "T" "Vg" then some "Super Heated Vapor"
      else none) = none
    rw [if_neg (lt_irrefl _), if_neg (fun hc => lt_irrefl _ hc.1), if_neg (not_lt.mpr h)]
  · show (if interp T "T" "Vg" < interp T "T" "Vf" then some "Liquid"
      else if interp T "T" "Vf" < interp T "T" "Vg" ∧ interp T "T" "Vg" < interp T "T" "Vg" then
        some "Two mixed phase mixture liquid and vapor"
      else if interp T "T" "Vg" > interp T "T" "Vg" then some "Super Heated Vapor"
      else none) = none
    rw [if_neg (not_lt.mpr h), if_neg (fun hc => lt_irrefl _ hc.2), if_neg (lt_irrefl _)]

/-- Witness for claim C10 at the concrete interpolation interpTest and
temperature 7. -/
theorem c10_phase_boundary_witness :
    interpTest 7 "T" "Vf" ≤ interpTest 7 "T" "Vg" ∧
      (phase interpTest 7 none (some (interpTest 7 "T" "Vf")) = none ∧
        phase interpTest 7 none (some (interpTest 7 "T" "Vg")) = none ∧
          phase interpTest 7 none none = none) :=
  ⟨by decide, c10_phase_boundary interpTest 7 (by decide)⟩

end Steam
